import Mathlib

/-!
Verification of the resilient API-call component of the Medical Diagnostic
application (src/medic_cia.py), against its natural-language specification.

The retry engine `call_huggingface_api_with_retry` (lines 78-128 of the
source) is embedded as a pure function over an abstract stream of attempt
outcomes: each HTTP POST attempt either produces a response (status code and
body text) or raises a `requests.exceptions.RequestException` with a message.
Randomness (`random.uniform(0, 0.5)`) is modelled by an explicit stream of
jitter draws, one per attempt index.  Time is modelled in seconds as `ℚ`; the
function records the full list of `time.sleep` durations it performs.

The response-parsing UI handlers (speech-recognition text extraction and
diagnosis `generated_text` extraction) are embedded over a small JSON value
type, with Python exceptions modelled as `Option`/sum results.
-/

namespace MedicCIA

/-- Outcome of one `requests.post` attempt: either an HTTP response with a
status code and body text, or a network-level `RequestException` with a
message (`str(e)` in the source). -/
inductive AttemptOutcome where
  | resp (status_code : Nat) (text : String)
  | exc (msg : String)
deriving DecidableEq

/-- The duck-typed view of a response object that every call site of
`call_huggingface_api_with_retry` uses: `status_code` and `text`.
Covers real `requests` responses as well as the ad hoc `ErrorResponse`
(status 0) and `FinalErrorResponse` (status 500) classes of the source. -/
structure Response where
  status_code : Nat
  text : String
deriving DecidableEq

/-- Result of one logical call: the returned response object, the number of
HTTP POST attempts actually performed, and the list of `time.sleep`
durations, in order. -/
structure CallResult where
  response : Response
  attempts : Nat
  sleeps : List ℚ
deriving DecidableEq

/-- The retry loop of `call_huggingface_api_with_retry`
(src/medic_cia.py lines 83-128), with `fuel = max_retries - retry_count`
(the Python loop guard is `retry_count < max_retries`), `idx` the 0-based
index of the next attempt, and `backoff` the current `backoff_time`.

Per iteration: one POST attempt.  A non-503 response is returned
immediately.  A 503 increments the retry count; if budget remains the loop
sleeps `backoff_time + random.uniform(0, 0.5)` and doubles `backoff_time`,
otherwise it returns the 503 response.  A `RequestException` increments the
retry count; if budget remains the loop sleeps exactly `backoff_time` (no
jitter term in the source, line 113) and doubles `backoff_time`, otherwise
it returns `ErrorResponse` (status 0, text `str(e)`).  The `fuel = 0` base
case is the fall-through after the `while` loop, returning
`FinalErrorResponse` (status 500). -/
def callAux (outcomes : Nat → AttemptOutcome) (jitters : Nat → ℚ) :
    Nat → Nat → ℚ → CallResult
  | 0, _, _ => ⟨⟨500, "Maximum retries exceeded"⟩, 0, []⟩
  | fuel + 1, idx, backoff =>
    match outcomes idx with
    | .resp s t =>
      if s = 503 then
        if fuel = 0 then ⟨⟨503, t⟩, 1, []⟩
        else
          let r := callAux outcomes jitters fuel (idx + 1) (backoff * 2)
          ⟨r.response, r.attempts + 1, (backoff + jitters idx) :: r.sleeps⟩
      else ⟨⟨s, t⟩, 1, []⟩
    | .exc m =>
      if fuel = 0 then ⟨⟨0, m⟩, 1, []⟩
      else
        let r := callAux outcomes jitters fuel (idx + 1) (backoff * 2)
        ⟨r.response, r.attempts + 1, backoff :: r.sleeps⟩

/-- `call_huggingface_api_with_retry(api_url, headers, data, json_data,
max_retries)` (src/medic_cia.py lines 78-128), abstracted over the attempt
outcomes and jitter draws.  `retry_count` starts at 0 and `backoff_time` at
1 second; the Python default for `max_retries` is 3. -/
def call_huggingface_api_with_retry (outcomes : Nat → AttemptOutcome)
    (jitters : Nat → ℚ) (max_retries : Nat) : CallResult :=
  callAux outcomes jitters max_retries 0 1

/-- A JSON value as produced by `response.json()`. -/
inductive Json where
  | str (s : String)
  | num (n : Int)
  | bool (b : Bool)
  | null
  | arr (items : List Json)
  | obj (fields : List (String × Json))

/-- Python subscripting `j[0]` on a decoded JSON value:
on a non-empty list it yields the first element; on a non-empty string it
yields the one-character string at position 0; every other case raises
(`IndexError` on an empty list or string, `KeyError` on a dict — decoded
JSON dicts have string keys, never the integer 0 — `TypeError` otherwise),
modelled as `none`. -/
def pyIndex0 : Json → Option Json
  | .arr (x :: _) => some x
  | .str s =>
    match s.data with
    | [] => none
    | c :: _ => some (.str (String.mk [c]))
  | _ => none

/-- Python subscripting `x[key]` with a string key: on a dict it yields the
value of the key if present (`KeyError` otherwise); on any other value it
raises (`TypeError`/`KeyError`), modelled as `none`. -/
def pyGetKey (key : String) : Json → Option Json
  | .obj fields => (fields.find? (fun p => p.1 == key)).map (fun p => p.2)
  | _ => none

/-- The diagnosis-parsing expression `response.json()[0]["generated_text"]`
used by every diagnosis call site of the source (lines 245, 286, 517, 586,
664, 692): `none` means the expression raised. -/
def extract_generated_text (body : Json) : Option Json :=
  (pyIndex0 body).bind (pyGetKey "generated_text")

/-- The value bound to `result` by the tab1 ANALYZE diagnosis block
(src/medic_cia.py lines 584-595): `ok v` means
`result = response.json()[0]["generated_text"]` succeeded with value `v`
(then shown via `st.success`); `serviceError` is the non-200 branch
(`result = "Diagnosis failed due to service unavailability."`);
`parseError` is the `except` branch (`result = "Diagnosis failed."`). -/
inductive DiagOutcome where
  | ok (v : Json)
  | serviceError
  | parseError

/-- The tab1 ANALYZE diagnosis block (src/medic_cia.py lines 584-595),
as a function of the diagnosis response status code and decoded body. -/
def analyze_diagnosis_tab1 (status_code : Nat) (body : Json) : DiagOutcome :=
  if status_code = 200 then
    match extract_generated_text body with
    | some v => .ok v
    | none => .parseError
  else .serviceError

/-- The tab3 "Analyze Text" handler (src/medic_cia.py lines 663-671).  It
performs no status-code check: it evaluates
`response.json()[0]["generated_text"]` directly inside `try`; `some v` is
the success path (`st.success`), `none` the caught-exception path
(`st.error("Diagnosis failed: ...")`). -/
def analyze_text_tab3 (body : Json) : Option Json :=
  extract_generated_text body

/-- What the tab1 ANALYZE speech-recognition step binds to `text`, plus
whether the error branch (with its `st.error` reports) was taken
(src/medic_cia.py lines 563-573). -/
structure RecognitionStep where
  text : Json
  error_reported : Bool

/-- The tab1 ANALYZE speech-recognition step (src/medic_cia.py lines
563-573): a non-200 response takes the error branch (`st.error` reports,
`text = "Speech recognition failed"`); a 200 response sets
`text = result_json.get("text", "Speech recognition failed")` with no error
report.  `none` models `.get` raising on a non-dict body (an uncaught
`AttributeError` in this block). -/
def analyze_recognition_tab1 (status_code : Nat) (body : Json) :
    Option RecognitionStep :=
  if status_code = 200 then
    match body with
    | .obj fields =>
      some ⟨(((fields.find? (fun p => p.1 == "text")).map (fun p => p.2)).getD
        (.str "Speech recognition failed")), false⟩
    | _ => none
  else some ⟨.str "Speech recognition failed", true⟩

/-- The transcription endpoint URL (src/medic_cia.py line 25). -/
def API_URL_RECOGNITION : String :=
  "https://api-inference.huggingface.co/models/jonatasgrosman/wav2vec2-large-xlsr-53-english"

/-- One outbound transcription HTTP request: target URL and raw audio
payload bytes. -/
structure RecognitionRequest where
  url : String
  payload : List Nat

/-- The tab1 "Analyze uploaded audio" handler (src/medic_cia.py lines
495-504), up to and including the transcription call, as a function of the
uploaded bytes: the list of transcription HTTP requests it issues and
whether a precondition-violation report was shown.  The source passes
`uploaded_file.getvalue()` straight to `call_huggingface_api_with_retry`
with no emptiness check and no precondition report; the ImportError-branch
upload handler of `use_simple_audio_recorder` (lines 266-272) is
identical. -/
def analyze_uploaded_audio_tab1 (audio_bytes : List Nat) :
    List RecognitionRequest × Bool :=
  ([⟨API_URL_RECOGNITION, audio_bytes⟩], false)

/-- The recorded-audio path of `use_simple_audio_recorder`
(src/medic_cia.py lines 215-231): the whole processing block is guarded by
`if len(audio) > 0`, and the transcription call happens only after the
"Process this recording" button is clicked.  Result: transcription HTTP
requests issued and whether a precondition-violation report was shown
(the empty case does nothing at all — no report). -/
def simple_recorder_requests (audio : List Nat) (process_clicked : Bool) :
    List RecognitionRequest × Bool :=
  if audio.length > 0 then
    (if process_clicked then [⟨API_URL_RECOGNITION, audio⟩] else [], false)
  else ([], false)

/-! ## Lemmas about the retry loop -/

lemma callAux_non503 (outcomes : Nat → AttemptOutcome) (jitters : Nat → ℚ)
    {idx : Nat} {s : Nat} {t : String} (fuel : Nat) (backoff : ℚ)
    (h : outcomes idx = .resp s t) (hs : s ≠ 503) :
    callAux outcomes jitters (fuel + 1) idx backoff = ⟨⟨s, t⟩, 1, []⟩ := by
  simp [callAux, h, hs]

lemma callAux_503_exhaust (outcomes : Nat → AttemptOutcome) (jitters : Nat → ℚ)
    {idx : Nat} {t : String} (fuel : Nat) (backoff : ℚ)
    (h : outcomes idx = .resp 503 t) (hf : fuel = 0) :
    callAux outcomes jitters (fuel + 1) idx backoff = ⟨⟨503, t⟩, 1, []⟩ := by
  subst hf
  simp [callAux, h]

lemma callAux_503_step (outcomes : Nat → AttemptOutcome) (jitters : Nat → ℚ)
    {idx : Nat} {t : String} (fuel : Nat) (backoff : ℚ)
    (h : outcomes idx = .resp 503 t) (hf : fuel ≠ 0) :
    callAux outcomes jitters (fuel + 1) idx backoff =
      ⟨(callAux outcomes jitters fuel (idx + 1) (backoff * 2)).response,
       (callAux outcomes jitters fuel (idx + 1) (backoff * 2)).attempts + 1,
       (backoff + jitters idx) ::
         (callAux outcomes jitters fuel (idx + 1) (backoff * 2)).sleeps⟩ := by
  simp [callAux, h, hf]

lemma callAux_exc_exhaust (outcomes : Nat → AttemptOutcome) (jitters : Nat → ℚ)
    {idx : Nat} {m : String} (fuel : Nat) (backoff : ℚ)
    (h : outcomes idx = .exc m) (hf : fuel = 0) :
    callAux outcomes jitters (fuel + 1) idx backoff = ⟨⟨0, m⟩, 1, []⟩ := by
  subst hf
  simp [callAux, h]

lemma callAux_exc_step (outcomes : Nat → AttemptOutcome) (jitters : Nat → ℚ)
    {idx : Nat} {m : String} (fuel : Nat) (backoff : ℚ)
    (h : outcomes idx = .exc m) (hf : fuel ≠ 0) :
    callAux outcomes jitters (fuel + 1) idx backoff =
      ⟨(callAux outcomes jitters fuel (idx + 1) (backoff * 2)).response,
       (callAux outcomes jitters fuel (idx + 1) (backoff * 2)).attempts + 1,
       backoff :: (callAux outcomes jitters fuel (idx + 1) (backoff * 2)).sleeps⟩ := by
  simp [callAux, h, hf]

lemma callAux_all_503 (outcomes : Nat → AttemptOutcome) (jitters : Nat → ℚ)
    (body : Nat → String) :
    ∀ (n idx : Nat) (backoff : ℚ),
      (∀ i, i < n + 1 → outcomes (idx + i) = .resp 503 (body (idx + i))) →
      callAux outcomes jitters (n + 1) idx backoff =
        ⟨⟨503, body (idx + n)⟩, n + 1,
          (List.range n).map (fun k => backoff * 2 ^ k + jitters (idx + k))⟩ := by
  intro n
  induction n with
  | zero =>
    intro idx backoff h
    have h0 : outcomes idx = .resp 503 (body idx) := by simpa using h 0 (by omega)
    rw [callAux_503_exhaust outcomes jitters 0 backoff h0 rfl]
    simp
  | succ n ih =>
    intro idx backoff h
    have h0 : outcomes idx = .resp 503 (body idx) := by simpa using h 0 (by omega)
    have hrec := ih (idx + 1) (backoff * 2) (fun i hi => by
      have hh := h (i + 1) (by omega)
      have harg : idx + (i + 1) = idx + 1 + i := by omega
      rwa [harg] at hh)
    rw [callAux_503_step outcomes jitters (n + 1) backoff h0 (Nat.succ_ne_zero n),
      hrec]
    have harg : idx + 1 + n = idx + (n + 1) := by omega
    have hfun : (fun k => backoff * 2 * 2 ^ k + jitters (idx + 1 + k)) =
        (fun k => backoff * 2 ^ k + jitters (idx + k)) ∘ Nat.succ := by
      funext k
      have hk : idx + 1 + k = idx + (k + 1) := by omega
      simp only [Function.comp, hk, Nat.succ_eq_add_one]
      rw [pow_succ]
      ring
    simp only [List.range_succ_eq_map, List.map_cons, List.map_map, harg, hfun]
    simp

lemma callAux_all_exc (outcomes : Nat → AttemptOutcome) (jitters : Nat → ℚ)
    (msg : Nat → String) :
    ∀ (n idx : Nat) (backoff : ℚ),
      (∀ i, i < n + 1 → outcomes (idx + i) = .exc (msg (idx + i))) →
      callAux outcomes jitters (n + 1) idx backoff =
        ⟨⟨0, msg (idx + n)⟩, n + 1,
          (List.range n).map (fun k => backoff * 2 ^ k)⟩ := by
  intro n
  induction n with
  | zero =>
    intro idx backoff h
    have h0 : outcomes idx = .exc (msg idx) := by simpa using h 0 (by omega)
    rw [callAux_exc_exhaust outcomes jitters 0 backoff h0 rfl]
    simp
  | succ n ih =>
    intro idx backoff h
    have h0 : outcomes idx = .exc (msg idx) := by simpa using h 0 (by omega)
    have hrec := ih (idx + 1) (backoff * 2) (fun i hi => by
      have hh := h (i + 1) (by omega)
      have harg : idx + (i + 1) = idx + 1 + i := by omega
      rwa [harg] at hh)
    rw [callAux_exc_step outcomes jitters (n + 1) backoff h0 (Nat.succ_ne_zero n),
      hrec]
    have harg : idx + 1 + n = idx + (n + 1) := by omega
    have hfun : (fun k => backoff * 2 * 2 ^ k) =
        (fun k => backoff * 2 ^ k) ∘ Nat.succ := by
      funext k
      simp only [Function.comp, Nat.succ_eq_add_one]
      rw [pow_succ]
      ring
    simp only [List.range_succ_eq_map, List.map_cons, List.map_map, harg, hfun]
    simp

lemma callAux_attempts_le (outcomes : Nat → AttemptOutcome) (jitters : Nat → ℚ) :
    ∀ (fuel idx : Nat) (backoff : ℚ),
      (callAux outcomes jitters fuel idx backoff).attempts ≤ fuel := by
  intro fuel
  induction fuel with
  | zero => intro idx backoff; simp [callAux]
  | succ fuel ih =>
    intro idx backoff
    match houtcome : outcomes idx with
    | .resp s t =>
      by_cases hs : s = 503
      · subst hs
        by_cases hf : fuel = 0
        · rw [callAux_503_exhaust outcomes jitters fuel backoff houtcome hf]
          simp only []
          omega
        · rw [callAux_503_step outcomes jitters fuel backoff houtcome hf]
          have := ih (idx + 1) (backoff * 2)
          simp only []
          omega
      · rw [callAux_non503 outcomes jitters fuel backoff houtcome hs]
        simp only []
        omega
    | .exc m =>
      by_cases hf : fuel = 0
      · rw [callAux_exc_exhaust outcomes jitters fuel backoff houtcome hf]
        simp only []
        omega
      · rw [callAux_exc_step outcomes jitters fuel backoff houtcome hf]
        have := ih (idx + 1) (backoff * 2)
        simp only []
        omega

/-! ## Claim theorems -/

/-- **C1.** For every call to `call_huggingface_api_with_retry` with
`max_retries ≥ 1` in which every attempt's HTTP response has status 503,
the function performs exactly `max_retries` HTTP POST attempts (never more)
and then returns the last 503 response as the terminal failure. -/
theorem retry_all_503_exhausts_budget (outcomes : Nat → AttemptOutcome)
    (jitters : Nat → ℚ) (body : Nat → String) (max_retries : Nat)
    (hm : 1 ≤ max_retries)
    (h : ∀ i, i < max_retries → outcomes i = .resp 503 (body i)) :
    (call_huggingface_api_with_retry outcomes jitters max_retries).attempts
        = max_retries ∧
    (call_huggingface_api_with_retry outcomes jitters max_retries).response
        = ⟨503, body (max_retries - 1)⟩ := by
  obtain ⟨n, rfl⟩ : ∃ n, max_retries = n + 1 := ⟨max_retries - 1, by omega⟩
  have hcall := callAux_all_503 outcomes jitters body n 0 1 (fun i hi => by
    simpa using h i hi)
  unfold call_huggingface_api_with_retry
  rw [hcall]
  simp

/-- Witness for C1: with every attempt answering 503, `max_retries = 3`
yields exactly 3 attempts and the last 503 response. -/
theorem retry_all_503_exhausts_budget_witness :
    (call_huggingface_api_with_retry (fun _ => .resp 503 "model loading")
        (fun _ => 0) 3).attempts = 3 ∧
    (call_huggingface_api_with_retry (fun _ => .resp 503 "model loading")
        (fun _ => 0) 3).response = ⟨503, "model loading"⟩ :=
  retry_all_503_exhausts_budget (fun _ => .resp 503 "model loading")
    (fun _ => 0) (fun _ => "model loading") 3 (by omega) (fun i _ => rfl)

/-- **C2.** For every call whose first attempt yields an HTTP response with
a status other than 503 — whether 200 or a permanent error status such as
404 or 500 — the function returns that response immediately after exactly
one attempt, with no retry and no sleep. -/
theorem first_non_503_returns_immediately (outcomes : Nat → AttemptOutcome)
    (jitters : Nat → ℚ) (s : Nat) (t : String) (max_retries : Nat)
    (hm : 1 ≤ max_retries) (hs : s ≠ 503) (h0 : outcomes 0 = .resp s t) :
    call_huggingface_api_with_retry outcomes jitters max_retries =
      ⟨⟨s, t⟩, 1, []⟩ := by
  obtain ⟨n, rfl⟩ : ∃ n, max_retries = n + 1 := ⟨max_retries - 1, by omega⟩
  exact callAux_non503 outcomes jitters n 1 h0 hs

/-- Witness for C2: a first-attempt 404 is returned after one attempt with
no sleeps. -/
theorem first_non_503_returns_immediately_witness :
    call_huggingface_api_with_retry (fun _ => .resp 404 "Not Found")
      (fun _ => 0) 3 = ⟨⟨404, "Not Found"⟩, 1, []⟩ :=
  first_non_503_returns_immediately (fun _ => .resp 404 "Not Found")
    (fun _ => 0) 404 "Not Found" 3 (by omega) (by omega) rfl

/-- **C5.** For every input, `call_huggingface_api_with_retry` terminates
after at most `max_retries` attempts and returns exactly one terminal
outcome value exposing `status_code` and `text`.  Termination, absence of
escaping exceptions, and uniqueness of the outcome are expressed by the
embedding being a total function into `CallResult` (every attempt either
returns a response or raises a `RequestException`, which the source
catches); this theorem states the attempt bound. -/
theorem call_terminates_within_budget (outcomes : Nat → AttemptOutcome)
    (jitters : Nat → ℚ) (max_retries : Nat) :
    (call_huggingface_api_with_retry outcomes jitters max_retries).attempts
      ≤ max_retries :=
  callAux_attempts_le outcomes jitters max_retries 0 1

/-- **C10.** When all `max_retries` attempts raise a network-level request
exception, the returned object has `status_code = 0` (not any HTTP status:
it is below 100 and in particular not 200, so every `status_code == 200`
call-site test classifies it as a failure, and it is distinguishable from
every HTTP-status failure) and `text` equal to the string form of the last
exception. -/
theorem network_exhaustion_returns_status_zero
    (outcomes : Nat → AttemptOutcome) (jitters : Nat → ℚ)
    (msg : Nat → String) (max_retries : Nat) (hm : 1 ≤ max_retries)
    (h : ∀ i, i < max_retries → outcomes i = .exc (msg i)) :
    (call_huggingface_api_with_retry outcomes jitters
        max_retries).response.status_code = 0 ∧
    (call_huggingface_api_with_retry outcomes jitters
        max_retries).response.text = msg (max_retries - 1) ∧
    (call_huggingface_api_with_retry outcomes jitters
        max_retries).response.status_code ≠ 200 ∧
    (call_huggingface_api_with_retry outcomes jitters
        max_retries).response.status_code < 100 := by
  obtain ⟨n, rfl⟩ : ∃ n, max_retries = n + 1 := ⟨max_retries - 1, by omega⟩
  have hcall := callAux_all_exc outcomes jitters msg n 0 1 (fun i hi => by
    simpa using h i hi)
  unfold call_huggingface_api_with_retry
  rw [hcall]
  simp

/-- Witness for C10: two network errors in a row with `max_retries = 2`
yield status 0 and the last error text. -/
theorem network_exhaustion_returns_status_zero_witness :
    (call_huggingface_api_with_retry (fun _ => .exc "ConnectionError")
        (fun _ => 0) 2).response.status_code = 0 ∧
    (call_huggingface_api_with_retry (fun _ => .exc "ConnectionError")
        (fun _ => 0) 2).response.text = "ConnectionError" ∧
    (call_huggingface_api_with_retry (fun _ => .exc "ConnectionError")
        (fun _ => 0) 2).response.status_code ≠ 200 ∧
    (call_huggingface_api_with_retry (fun _ => .exc "ConnectionError")
        (fun _ => 0) 2).response.status_code < 100 :=
  network_exhaustion_returns_status_zero (fun _ => .exc "ConnectionError")
    (fun _ => 0) (fun _ => "ConnectionError") 2 (by omega) (fun i _ => rfl)

/-- Modelled from the spec, for refutation only: the sleep formula the
claim asserts, `backoff * (1 + jitter)` with `jitter` a uniform fraction in
(0, 1).  The source (line 100) instead computes
`backoff_time + random.uniform(0, 0.5)`. -/
def specClaimedSleep (backoff jitter : ℚ) : ℚ := backoff * (1 + jitter)

/-- **C3 counterexample.** With every attempt answering 503, jitter draws
constantly 1/4 and `max_retries = 3`, the code sleeps [1 + 1/4, 2 + 1/4] =
[5/4, 9/4]; the claimed formula gives `specClaimedSleep 2 (1/4) = 5/2` for
the second retry, and `9/4 ≠ 5/2`. -/
theorem sleep_formula_counterexample :
    (call_huggingface_api_with_retry (fun _ => .resp 503 "busy")
        (fun _ => 1/4) 3).sleeps = [5/4, 9/4] ∧
    specClaimedSleep 2 (1/4) = 5/2 ∧
    (9/4 : ℚ) ≠ 5/2 := by
  refine ⟨?_, by norm_num [specClaimedSleep], by norm_num⟩
  have h := callAux_all_503 (fun _ => .resp 503 "busy") (fun _ => 1/4)
    (fun _ => "busy") 2 0 1 (fun i _ => rfl)
  have h2 : call_huggingface_api_with_retry (fun _ => .resp 503 "busy")
      (fun _ => 1/4) 3 =
      ⟨⟨503, "busy"⟩, 2 + 1,
        (List.range 2).map (fun k => 1 * 2 ^ k + (1 : ℚ)/4)⟩ := h
  rw [h2]
  simp [List.range_succ]
  norm_num

/-- **C3 (amended).** Before the n-th retry that follows a 503 response,
the sleep duration equals `backoff + jitter` where `jitter` is the uniform
random draw from [0, 0.5] (not `backoff * (1 + jitter)` with jitter in
(0, 1)), and `backoff` starts at 1 second and doubles after every retryable
failure, so the sleep sequence is `2^k + jitter_k` and the scheduled delays
are monotonically non-decreasing across the retries of one call. -/
theorem sleep_is_backoff_plus_jitter (outcomes : Nat → AttemptOutcome)
    (jitters : Nat → ℚ) (body : Nat → String) (max_retries : Nat)
    (h : ∀ i, i < max_retries → outcomes i = .resp 503 (body i))
    (hj : ∀ i, 0 ≤ jitters i ∧ jitters i ≤ 1/2) :
    (call_huggingface_api_with_retry outcomes jitters max_retries).sleeps =
      (List.range (max_retries - 1)).map (fun k => 2 ^ k + jitters k) ∧
    List.Pairwise (· ≤ ·)
      (call_huggingface_api_with_retry outcomes jitters max_retries).sleeps := by
  have hsleeps : (call_huggingface_api_with_retry outcomes jitters
      max_retries).sleeps =
      (List.range (max_retries - 1)).map (fun k => 2 ^ k + jitters k) := by
    obtain hm | hm := Nat.eq_zero_or_pos max_retries
    · subst hm
      rfl
    · obtain ⟨n, rfl⟩ : ∃ n, max_retries = n + 1 := ⟨max_retries - 1, by omega⟩
      have hcall := callAux_all_503 outcomes jitters body n 0 1 (fun i hi => by
        simpa using h i hi)
      unfold call_huggingface_api_with_retry
      rw [hcall]
      simp
  refine ⟨hsleeps, ?_⟩
  rw [hsleeps]
  refine (List.pairwise_map).2 ?_
  refine List.Pairwise.imp ?_ (List.pairwise_lt_range _)
  intro a b hab
  have hja := hj a
  have hjb := hj b
  have h1 : (1 : ℚ)/2 ≤ 2 ^ a := by
    calc (1 : ℚ)/2 ≤ 1 := by norm_num
    _ = (2 : ℚ) ^ 0 := by norm_num
    _ ≤ 2 ^ a := by
      apply pow_le_pow_right₀ (by norm_num) (Nat.zero_le a)
  have h2 : (2 : ℚ) ^ (a + 1) ≤ 2 ^ b := by
    apply pow_le_pow_right₀ (by norm_num) (by omega)
  have h3 : (2 : ℚ) ^ (a + 1) = 2 ^ a + 2 ^ a := by ring
  linarith [hja.2, hjb.1]

/-- Witness for the amended C3: all-503 attempts, jitter draws constantly
1/4, `max_retries = 3`. -/
theorem sleep_is_backoff_plus_jitter_witness :
    (call_huggingface_api_with_retry (fun _ => .resp 503 "busy")
        (fun _ => 1/4) 3).sleeps =
      (List.range 2).map (fun k => 2 ^ k + (1 : ℚ)/4) ∧
    List.Pairwise (· ≤ ·)
      (call_huggingface_api_with_retry (fun _ => .resp 503 "busy")
        (fun _ => 1/4) 3).sleeps :=
  sleep_is_backoff_plus_jitter (fun _ => .resp 503 "busy") (fun _ => 1/4)
    (fun _ => "busy") 3 (fun i _ => rfl)
    (fun i => ⟨by norm_num, by norm_num⟩)

/-- **C4 counterexample.** With the same jitter draws (constantly 1/4) and
the same budget (`max_retries = 2`), a network-exception run sleeps [1]
while a 503 run sleeps [1 + 1/4]: the exception branch does not use the
same backoff/jitter sleep schedule as a 503 response (the source, line 113,
sleeps `backoff_time` with no jitter term). -/
theorem exception_sleep_differs_from_503_sleep :
    (call_huggingface_api_with_retry (fun _ => .exc "ConnectionError")
        (fun _ => 1/4) 2).sleeps = [1] ∧
    (call_huggingface_api_with_retry (fun _ => .resp 503 "busy")
        (fun _ => 1/4) 2).sleeps = [1 + 1/4] ∧
    (1 : ℚ) ≠ 1 + 1/4 := by
  refine ⟨?_, ?_, by norm_num⟩
  · have h := callAux_all_exc (fun _ => .exc "ConnectionError")
      (fun _ => 1/4) (fun _ => "ConnectionError") 1 0 1 (fun i _ => rfl)
    have h2 : call_huggingface_api_with_retry (fun _ => .exc "ConnectionError")
        (fun _ => 1/4) 2 =
        ⟨⟨0, "ConnectionError"⟩, 1 + 1,
          (List.range 1).map (fun k => 1 * 2 ^ k)⟩ := h
    rw [h2]
    simp [List.range_succ]
  · have h := callAux_all_503 (fun _ => .resp 503 "busy") (fun _ => 1/4)
      (fun _ => "busy") 1 0 1 (fun i _ => rfl)
    have h2 : call_huggingface_api_with_retry (fun _ => .resp 503 "busy")
        (fun _ => 1/4) 2 =
        ⟨⟨503, "busy"⟩, 1 + 1,
          (List.range 1).map (fun k => 1 * 2 ^ k + (1 : ℚ)/4)⟩ := h
    rw [h2]
    simp [List.range_succ]

/-- **C4 (amended).** A network-level request exception is treated as
retryable with the same doubling backoff sequence (1, 2, 4, ... seconds)
and the same retry budget as a 503, but the sleep before each such retry is
exactly the current backoff, without the jitter term used for 503; on
exhaustion of the budget the function returns a failure result carrying the
error description as its body text. -/
theorem exception_retry_schedule (outcomes : Nat → AttemptOutcome)
    (jitters : Nat → ℚ) (msg : Nat → String) (max_retries : Nat)
    (hm : 1 ≤ max_retries)
    (h : ∀ i, i < max_retries → outcomes i = .exc (msg i)) :
    (call_huggingface_api_with_retry outcomes jitters max_retries).attempts
        = max_retries ∧
    (call_huggingface_api_with_retry outcomes jitters max_retries).sleeps =
      (List.range (max_retries - 1)).map (fun k => (2 : ℚ) ^ k) ∧
    (call_huggingface_api_with_retry outcomes jitters max_retries).response
        = ⟨0, msg (max_retries - 1)⟩ := by
  obtain ⟨n, rfl⟩ : ∃ n, max_retries = n + 1 := ⟨max_retries - 1, by omega⟩
  have hcall := callAux_all_exc outcomes jitters msg n 0 1 (fun i hi => by
    simpa using h i hi)
  unfold call_huggingface_api_with_retry
  rw [hcall]
  simp

/-- Witness for the amended C4: three network errors in a row,
`max_retries = 3`. -/
theorem exception_retry_schedule_witness :
    (call_huggingface_api_with_retry (fun _ => .exc "Timeout")
        (fun _ => 1/4) 3).attempts = 3 ∧
    (call_huggingface_api_with_retry (fun _ => .exc "Timeout")
        (fun _ => 1/4) 3).sleeps =
      (List.range 2).map (fun k => (2 : ℚ) ^ k) ∧
    (call_huggingface_api_with_retry (fun _ => .exc "Timeout")
        (fun _ => 1/4) 3).response = ⟨0, "Timeout"⟩ :=
  exception_retry_schedule (fun _ => .exc "Timeout") (fun _ => 1/4)
    (fun _ => "Timeout") 3 (by omega) (fun i _ => rfl)

/-- **C6 counterexample.** A 200 body that is the single object
`{"generated_text": "Y"}` does not normalize to `"Y"`: the expression
`response.json()[0]["generated_text"]` raises on a dict, the handler takes
its `except` branch, and the result is the failure message, not `"Y"`.
Likewise the unrecognized shape `{"foo": "bar"}` yields the failure
message, not a string rendering of the body; tab3 behaves the same way. -/
theorem single_object_shape_not_normalized :
    analyze_diagnosis_tab1 200 (.obj [("generated_text", .str "Y")]) =
      .parseError ∧
    DiagOutcome.parseError ≠ .ok (.str "Y") ∧
    analyze_diagnosis_tab1 200 (.obj [("foo", .str "bar")]) = .parseError ∧
    analyze_text_tab3 (.obj [("generated_text", .str "Y")]) = none ∧
    analyze_text_tab3 (.obj [("foo", .str "bar")]) = none :=
  ⟨rfl, by simp, rfl, rfl, rfl⟩

/-- **C6 (amended).** Diagnosis response handling only recognizes the
list-of-objects shape: a 200 body `[{"generated_text": "X"}, ...]` yields
`"X"`; a single object `{"generated_text": "Y"}` and an unrecognized shape
`{"foo": "bar"}` both make `response.json()[0]["generated_text"]` raise
inside the `try` block and are caught, yielding the failure result
(`"Diagnosis failed."` in tab1, the `st.error` path in tab3) — never an
uncaught exception or a crash, but also never `"Y"` and never a string
rendering of the body. -/
theorem diagnosis_normalization_actual (x y : String) (rest : List Json) :
    analyze_diagnosis_tab1 200
        (.arr (.obj [("generated_text", .str x)] :: rest)) = .ok (.str x) ∧
    analyze_diagnosis_tab1 200 (.obj [("generated_text", .str y)]) =
      .parseError ∧
    analyze_diagnosis_tab1 200 (.obj [("foo", .str "bar")]) = .parseError ∧
    analyze_text_tab3 (.arr (.obj [("generated_text", .str x)] :: rest)) =
      some (.str x) ∧
    analyze_text_tab3 (.obj [("generated_text", .str y)]) = none :=
  ⟨rfl, rfl, rfl, rfl, rfl⟩

/-- **C7 counterexample.** No preamble stripping exists in the source: the
generated text `"Doctor: Based on your symptoms, you have flu"` is returned
whole, not normalized to `"Based on your symptoms, you have flu"`. -/
theorem doctor_prefix_not_stripped :
    analyze_diagnosis_tab1 200
        (.arr [.obj [("generated_text",
          .str "Doctor: Based on your symptoms, you have flu")]]) =
      .ok (.str "Doctor: Based on your symptoms, you have flu") ∧
    DiagOutcome.ok (.str "Doctor: Based on your symptoms, you have flu") ≠
      .ok (.str "Based on your symptoms, you have flu") :=
  ⟨rfl, by simp⟩

/-- **C7 (amended).** No redundant-preamble prefix is stripped before a
diagnosis result is returned: the generated text is returned verbatim, so
in particular `"Doctor: Based on your symptoms, you have flu"` stays
unchanged. -/
theorem generated_text_returned_verbatim (s : String) (rest : List Json) :
    analyze_diagnosis_tab1 200
        (.arr (.obj [("generated_text", .str s)] :: rest)) = .ok (.str s) ∧
    analyze_text_tab3 (.arr (.obj [("generated_text", .str s)] :: rest)) =
      some (.str s) :=
  ⟨rfl, rfl⟩

/-- **C8 counterexample.** An empty uploaded audio byte buffer is not
rejected: the tab1 "Analyze uploaded audio" handler issues one
transcription HTTP call carrying the empty payload, and shows no
precondition-violation report. -/
theorem empty_upload_still_calls_api :
    (analyze_uploaded_audio_tab1 []).1.length = 1 ∧
    (analyze_uploaded_audio_tab1 []).1 = [⟨API_URL_RECOGNITION, []⟩] ∧
    (analyze_uploaded_audio_tab1 []).2 = false :=
  ⟨rfl, rfl, rfl⟩

/-- **C8 (amended).** Only the simple-recorder recording path skips
processing on empty audio (`if len(audio) > 0`), and it does so silently —
zero transcription HTTP calls but no precondition-violation report; the
uploaded-audio handlers perform no emptiness check at all and issue exactly
one transcription HTTP call with whatever bytes were uploaded, empty or
not, also without any precondition report. -/
theorem empty_audio_handling_actual (audio_bytes : List Nat)
    (clicked : Bool) :
    (simple_recorder_requests [] clicked).1 = [] ∧
    (simple_recorder_requests [] clicked).2 = false ∧
    (analyze_uploaded_audio_tab1 audio_bytes).1 =
      [⟨API_URL_RECOGNITION, audio_bytes⟩] ∧
    (analyze_uploaded_audio_tab1 audio_bytes).2 = false :=
  ⟨rfl, rfl, rfl, rfl⟩

/-- **C9 counterexample.** A transcription response with status 200 whose
body lacks the `"text"` field is silently coerced to the substitute string
`"Speech recognition failed"` with no error report
(`error_reported = false`); moreover that is the same sentinel text the
reported transport-failure branch uses, so the malformed-response case is
not surfaced as a distinct error. -/
theorem missing_text_field_silently_coerced :
    analyze_recognition_tab1 200 (.obj [("foo", .str "bar")]) =
      some ⟨.str "Speech recognition failed", false⟩ ∧
    analyze_recognition_tab1 404 (.obj []) =
      some ⟨.str "Speech recognition failed", true⟩ :=
  ⟨rfl, rfl⟩

/-- **C9 (amended).** For every 200 transcription body (a dict) lacking the
`"text"` field, `result_json.get("text", "Speech recognition failed")`
silently coerces the recognized text to the substitute sentinel
`"Speech recognition failed"`, and no error is reported: the malformed
upstream response is not surfaced as a distinct error. -/
theorem missing_text_field_yields_sentinel (fields : List (String × Json))
    (hmiss : fields.find? (fun p => p.1 == "text") = none) :
    analyze_recognition_tab1 200 (.obj fields) =
      some ⟨.str "Speech recognition failed", false⟩ := by
  simp [analyze_recognition_tab1, hmiss]

/-- Witness for the amended C9: the body `{"foo": "bar"}` has no `"text"`
field and yields the unreported sentinel. -/
theorem missing_text_field_yields_sentinel_witness :
    (([(("foo" : String), Json.str "bar")]).find?
        (fun p => p.1 == "text") = none) ∧
    analyze_recognition_tab1 200 (.obj [("foo", .str "bar")]) =
      some ⟨.str "Speech recognition failed", false⟩ :=
  ⟨rfl, missing_text_field_yields_sentinel [("foo", .str "bar")] rfl⟩

end MedicCIA
